import Mathlib

/-!
Verification development for the AI-Agent-Task-Decomposer repository
(src/app.py and src/app_pavi.py).

The two Python files implement the same pipeline: a coordinator turns a
project brief into a JSON list of task records, per-task generators turn a
task into a code-artifact record, and a Streamlit session dictionary stores
the task list and the artifact mapping.  This file gives a shallow
embedding of that pipeline:

- Json models the values produced by json.loads (numbers keep their
  source lexeme, since no claim inspects numeric magnitude).
- parseJson models json.loads on a whole string: leading and trailing
  JSON whitespace is allowed, anything left over is an error, and the
  NaN / Infinity / -Infinity extensions of the Python parser are kept.
- bracketSpanChars / braceSpanChars model the greedy regex spans
  used by the agents (first opening bracket to last closing bracket).
- searchSection models the section-marker regexes of app_pavi.py.
- decompose_project, generate_code_app, create_implementation_backend
  and create_implementation_frontend model the agent methods, taking the
  provider outcome (reply text or raised exception) as an Except value.
- SessionState / Step / Reachable model the session dictionary and the
  UI event handlers that mutate it.
- exportAllCode models the JSON export of app_pavi.py.

All definitions are written from the source files; character classes used
by the Python runtime (str.strip, regex whitespace) are modeled on their
ASCII subset, which covers every input any theorem below evaluates.
-/

/-- Whitespace characters stripped by the Python str.strip method and
matched by the regex class backslash-s (ASCII subset). -/
def isPySpace (c : Char) : Bool :=
  c = ' ' || c = '\t' || c = '\n' || c = '\r' || c = '\x0b' || c = '\x0c'

/-- Drop leading Python whitespace (models the regex star of backslash-s). -/
def dropWs (cs : List Char) : List Char :=
  cs.dropWhile isPySpace

/-- Python str.strip on a character list: remove leading and trailing
whitespace. -/
def stripChars (cs : List Char) : List Char :=
  ((dropWs cs).reverse.dropWhile isPySpace).reverse

/-- Python str.strip on a string. -/
def pyStrip (s : String) : String :=
  String.mk (stripChars s.data)

/-- Match an exact literal at the head of the input, returning the rest. -/
def dropLit : List Char → List Char → Option (List Char)
  | [], s => some s
  | p :: ps, c :: cs => if c = p then dropLit ps cs else none
  | _ :: _, [] => none

/-- Values produced by json.loads.  Numbers keep their source lexeme:
no claim inspects numeric magnitude, and integer identifiers print back
exactly as their lexeme. -/
inductive Json where
  | null
  | bool (b : Bool)
  | num (lexeme : String)
  | str (s : String)
  | arr (elems : List Json)
  | obj (fields : List (String × Json))

/-- JSON whitespace as accepted by the strict json.loads scanner. -/
def isJsonWs (c : Char) : Bool :=
  c = ' ' || c = '\t' || c = '\n' || c = '\r'

/-- Skip JSON whitespace. -/
def skipJsonWs : List Char → List Char
  | c :: rest => if isJsonWs c then skipJsonWs rest else c :: rest
  | [] => []

/-- ASCII decimal digit test. -/
def isDigitCh (c : Char) : Bool :=
  48 ≤ c.toNat && c.toNat ≤ 57

/-- Value of a hexadecimal digit, used for unicode escapes. -/
def hexVal (c : Char) : Option Nat :=
  if 48 ≤ c.toNat && c.toNat ≤ 57 then some (c.toNat - 48)
  else if 97 ≤ c.toNat && c.toNat ≤ 102 then some (c.toNat - 87)
  else if 65 ≤ c.toNat && c.toNat ≤ 70 then some (c.toNat - 55)
  else none

/-- Body of a JSON string literal after the opening quote, with the strict
escape set of json.loads (unescaped control characters are rejected; a
unicode escape becomes the character with that code point). -/
def parseStringBody : List Char → List Char → Option (String × List Char)
  | acc, '"' :: rest => some (String.mk acc.reverse, rest)
  | acc, '\\' :: 'u' :: h1 :: h2 :: h3 :: h4 :: rest =>
    match hexVal h1, hexVal h2, hexVal h3, hexVal h4 with
    | some a, some b, some c, some d =>
      parseStringBody (Char.ofNat (((a * 16 + b) * 16 + c) * 16 + d) :: acc) rest
    | _, _, _, _ => none
  | acc, '\\' :: '"' :: rest => parseStringBody ('"' :: acc) rest
  | acc, '\\' :: '\\' :: rest => parseStringBody ('\\' :: acc) rest
  | acc, '\\' :: '/' :: rest => parseStringBody ('/' :: acc) rest
  | acc, '\\' :: 'b' :: rest => parseStringBody ('\x08' :: acc) rest
  | acc, '\\' :: 'f' :: rest => parseStringBody ('\x0c' :: acc) rest
  | acc, '\\' :: 'n' :: rest => parseStringBody ('\n' :: acc) rest
  | acc, '\\' :: 'r' :: rest => parseStringBody ('\r' :: acc) rest
  | acc, '\\' :: 't' :: rest => parseStringBody ('\t' :: acc) rest
  | _, '\\' :: _ => none
  | acc, c :: rest => if c.toNat < 32 then none else parseStringBody (c :: acc) rest
  | _, [] => none

/-- Take a maximal run of decimal digits. -/
def takeDigits : List Char → List Char × List Char
  | [] => ([], [])
  | c :: rest =>
    if isDigitCh c then
      let p := takeDigits rest
      (c :: p.1, p.2)
    else ([], c :: rest)

/-- Integer part of a JSON number: a lone zero or a nonzero digit followed
by digits (the strict grammar of json.loads). -/
def lexIntPart : List Char → Option (List Char × List Char)
  | '0' :: rest => some (['0'], rest)
  | c :: rest =>
    if isDigitCh c then
      let p := takeDigits rest
      some (c :: p.1, p.2)
    else none
  | [] => none

/-- Optional fraction part; consumed only when well formed, as in the
number regex of the json module. -/
def lexFrac : List Char → List Char × List Char
  | '.' :: rest =>
    match takeDigits rest with
    | ([], _) => ([], '.' :: rest)
    | (ds, r) => ('.' :: ds, r)
  | cs => ([], cs)

/-- Optional exponent part; consumed only when well formed. -/
def lexExp : List Char → List Char × List Char
  | e :: rest =>
    if e = 'e' || e = 'E' then
      match rest with
      | '+' :: r2 =>
        (match takeDigits r2 with
         | ([], _) => ([], e :: rest)
         | (ds, r3) => (e :: '+' :: ds, r3))
      | '-' :: r2 =>
        (match takeDigits r2 with
         | ([], _) => ([], e :: rest)
         | (ds, r3) => (e :: '-' :: ds, r3))
      | r2 =>
        (match takeDigits r2 with
         | ([], _) => ([], e :: rest)
         | (ds, r3) => (e :: ds, r3))
    else ([], e :: rest)
  | [] => ([], [])

/-- Lex one JSON number, returning its lexeme and the rest. -/
def lexNumber (cs : List Char) : Option (List Char × List Char) :=
  match cs with
  | '-' :: cs1 =>
    (match lexIntPart cs1 with
     | none => none
     | some (ip, r1) =>
       let f := lexFrac r1
       let e := lexExp f.2
       some ('-' :: (ip ++ f.1 ++ e.1), e.2))
  | cs1 =>
    match lexIntPart cs1 with
    | none => none
    | some (ip, r1) =>
      let f := lexFrac r1
      let e := lexExp f.2
      some (ip ++ f.1 ++ e.1, e.2)

/-- Store a key in an object under construction: Python dict assignment
keeps the position of an existing key and appends a new one. -/
def setKey (l : List (String × Json)) (k : String) (v : Json) : List (String × Json) :=
  if (l.lookup k).isSome then
    l.map (fun p => if p.1 = k then (k, v) else p)
  else l ++ [(k, v)]

/-- Element loop for a nonempty JSON array, parameterized by the value
parser for the current nesting depth. -/
def elemsLoop (p : List Char → Option (Json × List Char)) :
    Nat → List Char → List Json → Option (List Json × List Char)
  | 0, _, _ => none
  | n + 1, cs, acc =>
    match p cs with
    | none => none
    | some (j, rest) =>
      match skipJsonWs rest with
      | ',' :: rest2 => elemsLoop p n rest2 (acc ++ [j])
      | ']' :: rest2 => some (acc ++ [j], rest2)
      | _ => none

/-- Member loop for a nonempty JSON object. -/
def memsLoop (p : List Char → Option (Json × List Char)) :
    Nat → List Char → List (String × Json) → Option (List (String × Json) × List Char)
  | 0, _, _ => none
  | n + 1, cs, acc =>
    match skipJsonWs cs with
    | '"' :: rest =>
      (match parseStringBody [] rest with
       | none => none
       | some (key, r1) =>
         match skipJsonWs r1 with
         | ':' :: r2 =>
           (match p r2 with
            | none => none
            | some (v, r3) =>
              match skipJsonWs r3 with
              | ',' :: r4 => memsLoop p n r4 (setKey acc key v)
              | '\x7d' :: r4 => some (setKey acc key v, r4)
              | _ => none)
         | _ => none)
    | _ => none

/-- Parse one JSON value, with nesting depth bounded by the fuel.  The
loops over elements and members are bounded by the remaining input length,
which suffices because every element consumes at least one character. -/
def parseVal : Nat → List Char → Option (Json × List Char)
  | 0 => fun _ => none
  | fuel + 1 => fun cs =>
    match skipJsonWs cs with
    | [] => none
    | '"' :: rest => (parseStringBody [] rest).map (fun p => (.str p.1, p.2))
    | '[' :: rest =>
      (match skipJsonWs rest with
       | ']' :: r2 => some (.arr [], r2)
       | r2 => (elemsLoop (parseVal fuel) (r2.length + 1) r2 []).map
                 (fun p => (.arr p.1, p.2)))
    | '\x7b' :: rest =>
      (match skipJsonWs rest with
       | '\x7d' :: r2 => some (.obj [], r2)
       | r2 => (memsLoop (parseVal fuel) (r2.length + 1) r2 []).map
                 (fun p => (.obj p.1, p.2)))
    | 't' :: rest => (dropLit ['r', 'u', 'e'] rest).map (fun r => (.bool true, r))
    | 'f' :: rest => (dropLit ['a', 'l', 's', 'e'] rest).map (fun r => (.bool false, r))
    | 'n' :: rest => (dropLit ['u', 'l', 'l'] rest).map (fun r => (.null, r))
    | 'N' :: rest => (dropLit ['a', 'N'] rest).map (fun r => (.num "NaN", r))
    | 'I' :: rest => (dropLit ['n', 'f', 'i', 'n', 'i', 't', 'y'] rest).map
        (fun r => (.num "Infinity", r))
    | '-' :: 'I' :: rest => (dropLit ['n', 'f', 'i', 'n', 'i', 't', 'y'] rest).map
        (fun r => (.num "-Infinity", r))
    | cs2 => (lexNumber cs2).map (fun p => (.num (String.mk p.1), p.2))

/-- Model of json.loads on a whole string: one value surrounded by
optional JSON whitespace; anything else raises, modeled as none. -/
def parseJson (s : String) : Option Json :=
  match parseVal (s.data.length + 1) s.data with
  | some (j, rest) => if skipJsonWs rest = [] then some j else none
  | none => none

/-- Greedy span of the regex bracket-dot-star-bracket with DOTALL: from
the first opening square bracket to the last closing square bracket, when
the latter comes after the former. -/
def bracketSpanChars (cs : List Char) : Option (List Char) :=
  match cs.dropWhile (fun c => c ≠ '[') with
  | [] => none
  | fromFirst =>
    match (fromFirst.reverse.dropWhile (fun c => c ≠ ']')).reverse with
    | [] => none
    | toLast => some toLast

/-- Greedy span from the first opening curly brace to the last closing
curly brace, as used by the object-style generators of app.py. -/
def braceSpanChars (cs : List Char) : Option (List Char) :=
  match cs.dropWhile (fun c => c ≠ '\x7b') with
  | [] => none
  | fromFirst =>
    match (fromFirst.reverse.dropWhile (fun c => c ≠ '\x7d')).reverse with
    | [] => none
    | toLast => some toLast

/-- CoordinatorAgent.decompose_project of app.py (identically,
ProjectCoordinator.analyze_and_breakdown of app_pavi.py).  The argument is
the outcome of the provider call: ok carries the raw message content,
error models an exception raised anywhere inside the try block.  The
return value is whatever json.loads produced (the Python annotation
List[Dict] is not enforced); every failure is caught and becomes the
empty list. -/
def decompose_project (provider : Except String String) : Json :=
  match provider with
  | .error _ => .arr []
  | .ok raw =>
    let content := pyStrip raw
    match bracketSpanChars content.data with
    | some span => (parseJson (String.mk span)).getD (.arr [])
    | none => (parseJson content).getD (.arr [])

/-- BackendAgent.generate_code and FrontendAgent.generate_code of app.py
(identical after their prompt text): extract the greedy curly-brace span,
parse it with json.loads, and on any exception return the empty dict. -/
def generate_code_app (provider : Except String String) : Json :=
  match provider with
  | .error _ => .obj []
  | .ok raw =>
    let content := pyStrip raw
    match braceSpanChars content.data with
    | some span => (parseJson (String.mk span)).getD (.obj [])
    | none => (parseJson content).getD (.obj [])

/-- Lower-case an ASCII letter, for the IGNORECASE regex flag. -/
def lowerCh (c : Char) : Char :=
  if 65 ≤ c.toNat && c.toNat ≤ 90 then Char.ofNat (c.toNat + 32) else c

/-- Match a literal case-insensitively at the head of the input. -/
def dropLitCI : List Char → List Char → Option (List Char)
  | [], s => some s
  | p :: ps, c :: cs => if lowerCh c = lowerCh p then dropLitCI ps cs else none
  | _ :: _, [] => none

/-- The three equals signs of a section marker. -/
def eqMarks : List Char := ['=', '=', '=']

/-- Match one section-marker header at the head of the input: the comment
mark, optional whitespace, three equals signs, optional whitespace, the
section name (case-insensitively), optional whitespace, three equals
signs.  Returns the input right after the closing equals signs.  This is
the marker part of the app_pavi regexes; the whitespace stars match a
maximal run because an equals sign is never whitespace. -/
def matchMarkerAt (mark name s : List Char) : Option (List Char) :=
  (dropLit mark s).bind fun s1 =>
  (dropLit eqMarks (dropWs s1)).bind fun s2 =>
  (dropLitCI name (dropWs s2)).bind fun s3 =>
  dropLit eqMarks (dropWs s3)

/-- Lookahead of the capture group: the comment mark, optional whitespace
and three equals signs, regardless of the section name. -/
def nextMarkerAt (mark s : List Char) : Bool :=
  ((dropLit mark s).bind fun s1 => dropLit eqMarks (dropWs s1)).isSome

/-- Text captured lazily up to the next marker start or the end of input. -/
def captureUpTo (mark : List Char) : List Char → List Char
  | [] => []
  | c :: rest =>
    if nextMarkerAt mark (c :: rest) then []
    else c :: captureUpTo mark rest

/-- Model of re.search for one app_pavi section regex (DOTALL and
IGNORECASE): find the leftmost marker header for the given section name
and return the stripped capture up to the next marker start or the end of
input.  The stripped capture is insensitive to whether the regex stops the
lazy group at a trailing newline, so the greedy whitespace after the
header and the end anchor are absorbed into the final strip. -/
def searchSection (mark name : List Char) : List Char → Option (List Char)
  | [] => none
  | c :: rest =>
    match matchMarkerAt mark name (c :: rest) with
    | some after => some (stripChars (captureUpTo mark after))
    | none => searchSection mark name rest

/-- String held by an optional section match, with the empty string for a
missing section (the Python code initializes every field to the empty
string and overwrites it only on a match). -/
def sectionField (o : Option (List Char)) : String :=
  String.mk (o.getD [])

/-- Comment mark of the backend section markers. -/
def backendMark : List Char := ['#']

/-- Comment mark of the frontend section markers. -/
def frontendMark : List Char := ['/', '/']

/-- BackendDeveloper.create_implementation of app_pavi.py: split the
stripped reply into the four marked sections; if all four fields come out
empty, fall back to placing the whole reply in the models field with
fixed placeholder comments in the other three; on an exception return the
record with every field set to the error placeholder. -/
def create_implementation_backend (provider : Except String String) :
    List (String × String) :=
  match provider with
  | .error _ =>
    [("models", "# Error generating code"), ("routes", "# Error generating code"),
     ("logic", "# Error generating code"), ("dependencies", "# Error generating code")]
  | .ok raw =>
    let content := pyStrip raw
    let models := sectionField (searchSection backendMark "DATABASE MODELS".data content.data)
    let routes := sectionField (searchSection backendMark "API ROUTES".data content.data)
    let logic := sectionField (searchSection backendMark "BUSINESS LOGIC".data content.data)
    let deps := sectionField (searchSection backendMark "DEPENDENCIES".data content.data)
    if models = "" ∧ routes = "" ∧ logic = "" ∧ deps = "" then
      [("models", content), ("routes", "# Code generated above"),
       ("logic", "# Code generated above"), ("dependencies", "# Check requirements above")]
    else
      [("models", models), ("routes", routes), ("logic", logic), ("dependencies", deps)]

/-- FrontendDeveloper.create_implementation of app_pavi.py: split the
stripped reply into the four marked sections; if all four fields come out
empty, place the whole reply in the component field and leave the others
empty; on an exception return the empty dict. -/
def create_implementation_frontend (provider : Except String String) :
    List (String × String) :=
  match provider with
  | .error _ => []
  | .ok raw =>
    let content := pyStrip raw
    let component := sectionField (searchSection frontendMark "REACT COMPONENT".data content.data)
    let styles := sectionField (searchSection frontendMark "STYLES".data content.data)
    let hooks := sectionField (searchSection frontendMark "HOOKS & API".data content.data)
    let deps := sectionField (searchSection frontendMark "DEPENDENCIES".data content.data)
    if component = "" ∧ styles = "" ∧ hooks = "" ∧ deps = "" then
      [("component", content), ("styles", ""), ("hooks", ""), ("dependencies", "")]
    else
      [("component", component), ("styles", styles), ("hooks", hooks), ("dependencies", deps)]

/-- The two generator kinds a task can be routed to. -/
inductive AgentKind where
  | backend
  | frontend
deriving DecidableEq

/-- Test whether a JSON value is exactly the given string (Python equality
of a parsed value against a string literal). -/
def jsonIsStr : Json → String → Bool
  | .str s, t => s == t
  | _, _ => false

/-- Python dict-get on the fields of a parsed task record. -/
def jget (j : Json) (k : String) : Option Json :=
  match j with
  | .obj fields => fields.lookup k
  | _ => none

/-- Generator dispatch of app.py main: BackendAgent exactly when
task.get of agent_type equals the string BACKEND, otherwise
FrontendAgent. -/
def dispatch_app (task : List (String × Json)) : AgentKind :=
  match task.lookup "agent_type" with
  | some v => if jsonIsStr v "BACKEND" then .backend else .frontend
  | none => .frontend

/-- Generator dispatch of app_pavi.py main: the category defaults to the
string UNKNOWN when absent, and BackendDeveloper is chosen exactly when it
equals the string BACKEND. -/
def dispatch_pavi (task : List (String × Json)) : AgentKind :=
  let category : Json := (task.lookup "category").getD (.str "UNKNOWN")
  if jsonIsStr category "BACKEND" then .backend else .frontend

mutual

/-- Python str applied to a parsed JSON value, as used in the f-string
that derives a task key.  Identifiers are integers or strings in practice;
an integer prints back as its lexeme.  Containers use the Python repr
shape (bracketed, comma separated, strings in single quotes). -/
def pyStr : Json → String
  | .null => "None"
  | .bool true => "True"
  | .bool false => "False"
  | .num l => l
  | .str s => s
  | .arr xs => "[" ++ pyStrList xs ++ "]"
  | .obj fs => "\x7b" ++ pyStrFields fs ++ "\x7d"

/-- Comma-separated rendering of a list value. -/
def pyStrList : List Json → String
  | [] => ""
  | [x] => pyStr x
  | x :: y :: xs => pyStr x ++ ", " ++ pyStrList (y :: xs)

/-- Comma-separated rendering of dict items. -/
def pyStrFields : List (String × Json) → String
  | [] => ""
  | [(k, v)] => "\x27" ++ k ++ "\x27: " ++ pyStr v
  | (k, v) :: f :: fs =>
    "\x27" ++ k ++ "\x27: " ++ pyStr v ++ ", " ++ pyStrFields (f :: fs)

end

/-- Task key derived in app_pavi.py main: task_ followed by the id field
of the task, or the position of the task in the displayed list when the
id is absent (modeled with the default All Tasks filter, under which the
displayed list is the whole task list). -/
def taskKeyPavi (task : Json) (idx : Nat) : String :=
  match jget task "id" with
  | some v => "task_" ++ pyStr v
  | none => "task_" ++ toString idx

/-- One stored artifact of app_pavi.py: the dict written into
code_outputs by the generate handler. -/
structure CodeEntry where
  task : Json
  code : List (String × String)
  generated_at : String

/-- The session dictionary of app_pavi.py: current task list, artifact
mapping (as the insertion-ordered item list of the Python dict), and the
stored project description. -/
structure SessionState where
  task_list : List Json
  code_outputs : List (String × CodeEntry)
  project_description : String

/-- Initial session state. -/
def initialState : SessionState :=
  { task_list := [], code_outputs := [], project_description := "" }

/-- Successful decompose handler (app_pavi.py main, analyze branch):
a truthy task list replaces the whole task list and the description;
the artifact mapping is not touched. -/
def applyDecompose (s : SessionState) (newTasks : List Json) (brief : String) :
    SessionState :=
  { s with task_list := newTasks, project_description := brief }

/-- Generate handler (app_pavi.py main): when the returned record is
truthy, append the artifact under the derived task key; a falsy record
leaves the store unchanged. -/
def applyGenerate (s : SessionState) (task : Json) (idx : Nat)
    (code : List (String × String)) (now : String) : SessionState :=
  if code = [] then s
  else
    { s with code_outputs :=
        s.code_outputs ++ [(taskKeyPavi task idx, { task := task, code := code, generated_at := now })] }

/-- Regenerate handler: del on the artifact mapping at the task key. -/
def applyRegenerate (s : SessionState) (k : String) : SessionState :=
  { s with code_outputs := s.code_outputs.filter (fun p => p.1 != k) }

/-- Edit Tasks button: clears the task list and the artifact mapping. -/
def applyEditTasks (s : SessionState) : SessionState :=
  { s with task_list := [], code_outputs := [] }

/-- Reset Everything button: empty task list, empty artifact mapping,
empty description. -/
def applyReset (_s : SessionState) : SessionState :=
  { task_list := [], code_outputs := [], project_description := "" }

/-- One user-triggered session transition.  The side conditions are the
ones the UI enforces: decompose stores only a truthy task list, the
generate button exists only for a task of the current list whose key has
no artifact yet, and the regenerate button only for a key that has one. -/
inductive Step : SessionState → SessionState → Prop where
  | decompose (s : SessionState) (newTasks : List Json) (brief : String)
      (hne : newTasks ≠ []) :
      Step s (applyDecompose s newTasks brief)
  | generate (s : SessionState) (task : Json) (idx : Nat)
      (code : List (String × String)) (now : String)
      (hidx : s.task_list.get? idx = some task)
      (hnew : (s.code_outputs.lookup (taskKeyPavi task idx)) = none) :
      Step s (applyGenerate s task idx code now)
  | regenerate (s : SessionState) (k : String)
      (hold : (s.code_outputs.lookup k).isSome) :
      Step s (applyRegenerate s k)
  | editTasks (s : SessionState) (hne : s.task_list ≠ []) :
      Step s (applyEditTasks s)
  | reset (s : SessionState) :
      Step s (applyReset s)

/-- Session states reachable from the initial state by user actions. -/
inductive Reachable : SessionState → Prop where
  | init : Reachable initialState
  | step (s t : SessionState) : Reachable s → Step s t → Reachable t

/-- Keys whose artifacts the display section renders: the Generated Code
loop iterates directly over the artifact mapping. -/
def renderedKeys (s : SessionState) : List String :=
  s.code_outputs.map Prod.fst

/-- Task keys derivable from the current task list (each task at its
position in the list). -/
def currentTaskKeys (s : SessionState) : List String :=
  s.task_list.enum.map (fun p => taskKeyPavi p.2 p.1)

/-- Wall-clock instant, as carried by datetime.now. -/
structure DateTime where
  year : Nat
  month : Nat
  day : Nat
  hour : Nat
  minute : Nat
  second : Nat
  microsecond : Nat

/-- Decimal digit character of the last digit of a number. -/
def digitChar (n : Nat) : Char :=
  match n % 10 with
  | 0 => '0'
  | 1 => '1'
  | 2 => '2'
  | 3 => '3'
  | 4 => '4'
  | 5 => '5'
  | 6 => '6'
  | 7 => '7'
  | 8 => '8'
  | _ => '9'

/-- Two-digit zero-padded decimal (the percent-02d of datetime fields,
whose values stay below one hundred). -/
def pad2 (n : Nat) : List Char :=
  [digitChar (n / 10), digitChar n]

/-- Four-digit zero-padded decimal for the year, which datetime keeps
below ten thousand. -/
def pad4 (n : Nat) : List Char :=
  [digitChar (n / 1000), digitChar (n / 100), digitChar (n / 10), digitChar n]

/-- Six-digit zero-padded decimal for microseconds. -/
def pad6 (n : Nat) : List Char :=
  [digitChar (n / 100000), digitChar (n / 10000), digitChar (n / 1000),
   digitChar (n / 100), digitChar (n / 10), digitChar n]

/-- datetime.isoformat: date, the letter T, time, and the microsecond
fraction exactly when it is nonzero. -/
def isoformat (dt : DateTime) : String :=
  String.mk
    (pad4 dt.year ++ ['-'] ++ pad2 dt.month ++ ['-'] ++ pad2 dt.day ++ ['T'] ++
     pad2 dt.hour ++ [':'] ++ pad2 dt.minute ++ [':'] ++ pad2 dt.second ++
     (if dt.microsecond = 0 then [] else '.' :: pad6 dt.microsecond))

/-- Consume exactly n decimal digits. -/
def chompDigits : Nat → List Char → Option (List Char)
  | 0, cs => some cs
  | n + 1, c :: cs => if isDigitCh c then chompDigits n cs else none
  | _ + 1, [] => none

/-- Consume one expected character. -/
def chompCh (c : Char) : List Char → Option (List Char)
  | d :: cs => if d = c then some cs else none
  | [] => none

/-- Recognizer for the ISO-8601 combined date-time format produced by
datetime.isoformat: YYYY-MM-DDTHH:MM:SS with an optional six-digit
fraction. -/
def iso8601Check (s : String) : Bool :=
  match ((((((((((chompDigits 4 s.data).bind (chompCh '-')).bind
      (chompDigits 2)).bind (chompCh '-')).bind (chompDigits 2)).bind
      (chompCh 'T')).bind (chompDigits 2)).bind (chompCh ':')).bind
      (chompDigits 2)).bind (chompCh ':')).bind (chompDigits 2) with
  | none => false
  | some [] => true
  | some ('.' :: rest) =>
    (match chompDigits 6 rest with
     | some [] => true
     | _ => false)
  | some _ => false

/-- JSON encoding of a stored code record (a dict of strings). -/
def encodeCodeDict (c : List (String × String)) : Json :=
  .obj (c.map (fun p => (p.1, .str p.2)))

/-- JSON encoding of one artifact mapping entry, with its three keys
task, code and generated_at. -/
def encodeEntry (e : CodeEntry) : Json :=
  .obj [("task", e.task), ("code", encodeCodeDict e.code),
        ("generated_at", .str e.generated_at)]

/-- Export handler of app_pavi.py main: the JSON document handed to
json.dumps, with its four top-level keys. -/
def exportAllCode (s : SessionState) (now : DateTime) : Json :=
  .obj [("project", .str s.project_description),
        ("tasks", .arr s.task_list),
        ("generated_code", .obj (s.code_outputs.map (fun p => (p.1, encodeEntry p.2)))),
        ("timestamp", .str (isoformat now))]

theorem mem_of_mem_dropWhile {α : Type} (p : α → Bool) (l : List α) (a : α)
    (h : a ∈ l.dropWhile p) : a ∈ l := by
  induction l with
  | nil => simp at h
  | cons b rest ih =>
    by_cases hb : p b
    · rw [List.dropWhile_cons_of_pos hb] at h
      exact List.mem_cons_of_mem _ (ih h)
    · rw [List.dropWhile_cons_of_neg hb] at h
      exact h

theorem mem_of_mem_stripChars (c : Char) (l : List Char)
    (h : c ∈ stripChars l) : c ∈ l := by
  unfold stripChars dropWs at h
  rw [List.mem_reverse] at h
  have h2 := mem_of_mem_dropWhile _ _ _ h
  rw [List.mem_reverse] at h2
  exact mem_of_mem_dropWhile _ _ _ h2

theorem bracketSpan_none_of_no_bracket (cs : List Char)
    (h : '[' ∉ cs) : bracketSpanChars cs = none := by
  have hd : cs.dropWhile (fun c => c ≠ '[') = [] := by
    rw [List.dropWhile_eq_nil_iff]
    intro x hx
    simp only [ne_eq, decide_eq_true_eq]
    intro hEq
    exact h (hEq ▸ hx)
  unfold bracketSpanChars
  rw [hd]

theorem lookup_filter_ne (k : String) (l : List (String × CodeEntry)) :
    List.lookup k (l.filter (fun p => p.1 != k)) = none := by
  induction l with
  | nil => rfl
  | cons p rest ih =>
    obtain ⟨a, b⟩ := p
    by_cases h : a = k
    · simp only [List.filter]
      rw [show (a != k) = false by simp [h]]
      exact ih
    · simp only [List.filter]
      rw [show (a != k) = true by simp [h]]
      simp only [List.lookup]
      rw [show (k == a) = false from beq_eq_false_iff_ne.mpr (Ne.symm h)]
      exact ih

theorem lookup_append_of_none (k : String) (l1 l2 : List (String × CodeEntry))
    (h : List.lookup k l1 = none) :
    List.lookup k (l1 ++ l2) = List.lookup k l2 := by
  induction l1 with
  | nil => simp
  | cons p rest ih =>
    obtain ⟨a, b⟩ := p
    by_cases hk : k = a
    · exfalso
      simp [List.lookup, hk] at h
    · have hb : (k == a) = false := beq_eq_false_iff_ne.mpr hk
      simp only [List.cons_append, List.lookup, hb] at h ⊢
      exact ih h

theorem isDigit_digitChar (n : Nat) : isDigitCh (digitChar n) = true := by
  unfold digitChar
  split <;> rfl

theorem iso8601Check_isoformat (dt : DateTime) :
    iso8601Check (isoformat dt) = true := by
  unfold iso8601Check isoformat pad4 pad2 pad6
  by_cases h : dt.microsecond = 0 <;>
    simp [h, chompDigits, chompCh, isDigit_digitChar]

/-- Extraction target of the decomposer: the greedy bracket span when one
exists, otherwise the whole (already stripped) reply. -/
def extractTarget (content : String) : String :=
  match bracketSpanChars content.data with
  | some span => String.mk span
  | none => content

/-- Claim C1, counterexample: on the reply hello, in which none of the
four backend section markers occur, the backend extractor does not leave
the other fields empty; it fills routes, logic and dependencies with
fixed placeholder comments, refuting the claim for the backend variant. -/
theorem c1_counterexample :
    searchSection backendMark "DATABASE MODELS".data (pyStrip "hello").data = none ∧
    searchSection backendMark "API ROUTES".data (pyStrip "hello").data = none ∧
    searchSection backendMark "BUSINESS LOGIC".data (pyStrip "hello").data = none ∧
    searchSection backendMark "DEPENDENCIES".data (pyStrip "hello").data = none ∧
    create_implementation_backend (Except.ok "hello") =
      [("models", "hello"), ("routes", "# Code generated above"),
       ("logic", "# Code generated above"), ("dependencies", "# Check requirements above")] ∧
    List.lookup "routes" (create_implementation_backend (Except.ok "hello")) ≠ some "" :=
  ⟨rfl, rfl, rfl, rfl, rfl, by decide⟩

/-- Claim C1 (amended): when none of the four section markers of a
variant occur in the stripped reply, the whole stripped reply goes to the
fallback field (models for the backend, component for the frontend); the
frontend variant leaves the other three fields empty, while the backend
variant fills them with the fixed placeholder comments. -/
theorem c1_marker_fallback (raw : String) :
    ((searchSection backendMark "DATABASE MODELS".data (pyStrip raw).data = none) →
     (searchSection backendMark "API ROUTES".data (pyStrip raw).data = none) →
     (searchSection backendMark "BUSINESS LOGIC".data (pyStrip raw).data = none) →
     (searchSection backendMark "DEPENDENCIES".data (pyStrip raw).data = none) →
     create_implementation_backend (Except.ok raw) =
       [("models", pyStrip raw), ("routes", "# Code generated above"),
        ("logic", "# Code generated above"), ("dependencies", "# Check requirements above")]) ∧
    ((searchSection frontendMark "REACT COMPONENT".data (pyStrip raw).data = none) →
     (searchSection frontendMark "STYLES".data (pyStrip raw).data = none) →
     (searchSection frontendMark "HOOKS & API".data (pyStrip raw).data = none) →
     (searchSection frontendMark "DEPENDENCIES".data (pyStrip raw).data = none) →
     create_implementation_frontend (Except.ok raw) =
       [("component", pyStrip raw), ("styles", ""), ("hooks", ""), ("dependencies", "")]) := by
  constructor
  · intro h1 h2 h3 h4
    simp only [create_implementation_backend, h1, h2, h3, h4]
    simp [sectionField]
  · intro h1 h2 h3 h4
    simp only [create_implementation_frontend, h1, h2, h3, h4]
    simp [sectionField]

/-- Witness for the amended claim C1 at the markerless reply hello world. -/
theorem c1_marker_fallback_witness :
    create_implementation_backend (Except.ok "hello world") =
      [("models", "hello world"), ("routes", "# Code generated above"),
       ("logic", "# Code generated above"), ("dependencies", "# Check requirements above")] ∧
    create_implementation_frontend (Except.ok "hello world") =
      [("component", "hello world"), ("styles", ""), ("hooks", ""), ("dependencies", "")] :=
  ⟨(c1_marker_fallback "hello world").1 rfl rfl rfl rfl,
   (c1_marker_fallback "hello world").2 rfl rfl rfl rfl⟩

/-- Claim C2, counterexample: the reply 42 contains no opening square
bracket, yet the decomposer returns the parsed number rather than an
empty sequence (json.loads succeeds on the whole reply and its value is
returned as is). -/
theorem c2_counterexample :
    '[' ∉ "42".data ∧
    decompose_project (Except.ok "42") = Json.num "42" ∧
    Json.num "42" ≠ Json.arr [] :=
  ⟨by decide, rfl, fun h => Json.noConfusion h⟩

/-- Claim C2 (amended): for every reply without an opening square bracket
whose stripped text is not valid JSON, the decomposer returns the empty
list (the exception from json.loads is caught at the operation boundary);
a bracket-free reply that is itself valid JSON is instead returned as the
parsed value, which need not be a sequence. -/
theorem c2_no_bracket_empty (raw : String)
    (hbr : '[' ∉ raw.data)
    (hparse : parseJson (pyStrip raw) = none) :
    decompose_project (Except.ok raw) = Json.arr [] := by
  have hbr2 : '[' ∉ stripChars raw.data :=
    fun hmem => hbr (mem_of_mem_stripChars _ _ hmem)
  have hspan : bracketSpanChars (pyStrip raw).data = none :=
    bracketSpan_none_of_no_bracket _ hbr2
  simp only [decompose_project, hspan, hparse, Option.getD_none]

/-- Witness for the amended claim C2 at the bracket-free refusal reply. -/
theorem c2_no_bracket_empty_witness :
    decompose_project (Except.ok "Sorry, I cannot help.") = Json.arr [] :=
  c2_no_bracket_empty "Sorry, I cannot help." (by decide) rfl

/-- Claim C3, counterexample: a failed frontend generation returns the
empty dict, not a record whose every field holds an error placeholder, so
a failure is indistinguishable from a not-yet-generated artifact there. -/
theorem c3_counterexample :
    create_implementation_frontend (Except.error "boom") = [] ∧
    List.lookup "component" (create_implementation_frontend (Except.error "boom")) = none :=
  ⟨rfl, rfl⟩

/-- Claim C3 (amended): on a failed generation the backend variant of
app_pavi.py returns the record with every field set to the error
placeholder, while the frontend variant of app_pavi.py and both agents of
app.py return the empty dict. -/
theorem c3_failure_placeholders (msg : String) :
    create_implementation_backend (Except.error msg) =
      [("models", "# Error generating code"), ("routes", "# Error generating code"),
       ("logic", "# Error generating code"), ("dependencies", "# Error generating code")] ∧
    create_implementation_frontend (Except.error msg) = [] ∧
    generate_code_app (Except.error msg) = Json.obj [] :=
  ⟨rfl, rfl, rfl⟩

/-- Claim C5: when the extraction target of a reply (greedy bracket span,
or the whole stripped reply without one) parses as a JSON array, the
decomposer returns exactly that array: same length, elements identical,
hence every field of every element (identity, category, requirements)
passes through unchanged. -/
theorem c5_passthrough (raw : String) (l : List Json)
    (h : parseJson (extractTarget (pyStrip raw)) = some (Json.arr l)) :
    decompose_project (Except.ok raw) = Json.arr l ∧
    ∃ out, decompose_project (Except.ok raw) = Json.arr out ∧
      out.length = l.length ∧
      (∀ i, out.get? i = l.get? i) ∧
      (∀ i k, (out.get? i).bind (fun t => jget t k) = (l.get? i).bind (fun t => jget t k)) := by
  have hmain : decompose_project (Except.ok raw) = Json.arr l := by
    unfold extractTarget at h
    cases hb : bracketSpanChars (pyStrip raw).data with
    | some span =>
      rw [hb] at h
      simp only [decompose_project, hb, h, Option.getD_some]
    | none =>
      rw [hb] at h
      simp only [decompose_project, hb, h, Option.getD_some]
  exact ⟨hmain, l, hmain, rfl, fun _ => rfl, fun _ _ => rfl⟩

/-- Witness for claim C5 at a reply with a two-element array span. -/
theorem c5_passthrough_witness :
    decompose_project (Except.ok "reply: [1, \"a\"] end") =
      Json.arr [Json.num "1", Json.str "a"] :=
  (c5_passthrough "reply: [1, \"a\"] end" [Json.num "1", Json.str "a"] rfl).1

/-- Claim C10: both dispatchers pick the backend generator exactly when
the routing field (agent_type in app.py, category in app_pavi.py) is the
exact string BACKEND, and everything else, including a missing field,
goes to the frontend generator; there is no third outcome. -/
theorem c10_dispatch_iff (task : List (String × Json)) :
    (dispatch_app task = AgentKind.backend ↔
      task.lookup "agent_type" = some (Json.str "BACKEND")) ∧
    (dispatch_app task = AgentKind.backend ∨ dispatch_app task = AgentKind.frontend) ∧
    (dispatch_pavi task = AgentKind.backend ↔
      task.lookup "category" = some (Json.str "BACKEND")) ∧
    (dispatch_pavi task = AgentKind.backend ∨ dispatch_pavi task = AgentKind.frontend) := by
  refine ⟨?_, ?_, ?_, ?_⟩
  · unfold dispatch_app
    cases ho : task.lookup "agent_type" with
    | none => simp
    | some v =>
      cases v with
      | str s =>
        by_cases hs : s = "BACKEND" <;> simp [jsonIsStr, hs]
      | null => simp [jsonIsStr]
      | bool b => simp [jsonIsStr]
      | num l => simp [jsonIsStr]
      | arr xs => simp [jsonIsStr]
      | obj fs => simp [jsonIsStr]
  · unfold dispatch_app
    cases task.lookup "agent_type" with
    | none => right; rfl
    | some v =>
      by_cases hv : jsonIsStr v "BACKEND" = true
      · left; simp [hv]
      · right; simp [hv]
  · unfold dispatch_pavi
    cases ho : task.lookup "category" with
    | none => simp [jsonIsStr]
    | some v =>
      cases v with
      | str s =>
        by_cases hs : s = "BACKEND" <;> simp [jsonIsStr, hs]
      | null => simp [jsonIsStr]
      | bool b => simp [jsonIsStr]
      | num l => simp [jsonIsStr]
      | arr xs => simp [jsonIsStr]
      | obj fs => simp [jsonIsStr]
  · unfold dispatch_pavi
    cases task.lookup "category" with
    | none => right; simp [jsonIsStr]
    | some v =>
      by_cases hv : jsonIsStr v "BACKEND" = true
      · left; simp [hv]
      · right; simp [hv]

/-- Sample backend task with identifier one. -/
def sampleTaskA : Json :=
  .obj [("id", .num "1"), ("name", .str "Design post schema"),
        ("category", .str "BACKEND"), ("description", .str "Posts table")]

/-- Sample frontend task with identifier two. -/
def sampleTaskB : Json :=
  .obj [("id", .num "2"), ("name", .str "Build feed page"),
        ("category", .str "FRONTEND"), ("description", .str "Feed UI")]

/-- Sample generated backend record. -/
def sampleCode : List (String × String) :=
  [("models", "class Post: pass"), ("routes", "# Code generated above"),
   ("logic", "# Code generated above"), ("dependencies", "# Check requirements above")]

/-- Sample artifact entry for the sample backend task. -/
def sampleEntryA : CodeEntry :=
  { task := sampleTaskA, code := sampleCode, generated_at := "10:00:00" }

/-- Session state reached by decomposing a first brief, generating code
for its only task, and then decomposing a second brief. -/
def staleState : SessionState :=
  applyDecompose
    (applyGenerate (applyDecompose initialState [sampleTaskA] "a blog")
      sampleTaskA 0 sampleCode "10:00:00")
    [sampleTaskB] "a shop"

/-- Claim C4, counterexample: the state reached by decompose, generate,
decompose is reachable, yet the artifact stored under task_1 is still in
the artifact mapping and rendered although no task of the current list
derives that key; decomposing a new brief does not clear the mapping. -/
theorem c4_counterexample :
    Reachable staleState ∧
    "task_1" ∈ renderedKeys staleState ∧
    "task_1" ∉ currentTaskKeys staleState := by
  refine ⟨?_, by decide, by decide⟩
  have h1 : Reachable (applyDecompose initialState [sampleTaskA] "a blog") :=
    Reachable.step _ _ Reachable.init (Step.decompose _ [sampleTaskA] "a blog" (by simp))
  have h2 : Reachable (applyGenerate (applyDecompose initialState [sampleTaskA] "a blog")
      sampleTaskA 0 sampleCode "10:00:00") :=
    Reachable.step _ _ h1 (Step.generate _ sampleTaskA 0 sampleCode "10:00:00" rfl rfl)
  exact Reachable.step _ _ h2 (Step.decompose _ [sampleTaskB] "a shop" (by simp))

/-- Claim C4 (amended): decomposing a new brief replaces the task list
but leaves the artifact mapping untouched, so every previously stored
artifact, including one keyed by a task absent from the new list, stays
retrievable and stays rendered; only the reset and edit-tasks actions
clear the mapping. -/
theorem c4_decompose_keeps_artifacts (s : SessionState) (newTasks : List Json)
    (brief : String) (hne : newTasks ≠ []) :
    Step s (applyDecompose s newTasks brief) ∧
    (applyDecompose s newTasks brief).code_outputs = s.code_outputs ∧
    renderedKeys (applyDecompose s newTasks brief) = renderedKeys s ∧
    (∀ k, List.lookup k (applyDecompose s newTasks brief).code_outputs =
      List.lookup k s.code_outputs) :=
  ⟨Step.decompose s newTasks brief hne, rfl, rfl, fun _ => rfl⟩

/-- Witness for the amended claim C4 at the stale sample state. -/
theorem c4_decompose_keeps_artifacts_witness :
    (applyDecompose staleState [sampleTaskA] "again").code_outputs =
      staleState.code_outputs :=
  (c4_decompose_keeps_artifacts staleState [sampleTaskA] "again" (by simp)).2.1

/-- Claim C7: resetting from any session state yields the empty task list
and the empty artifact mapping, the reset transition is available in every
state, and afterwards no artifact is retrievable for any key, in
particular none for a key outside the (now empty) task list. -/
theorem c7_reset_empties (s : SessionState) :
    Step s (applyReset s) ∧
    (applyReset s).task_list = [] ∧
    (applyReset s).code_outputs = [] ∧
    (∀ k : String, List.lookup k (applyReset s).code_outputs = none) :=
  ⟨Step.reset s, rfl, rfl, fun _ => rfl⟩

/-- Claim C8: regenerating deletes the stored artifact before anything
new is stored (the intermediate state holds no artifact under the key),
and a subsequent generation for the same key stores a record built
entirely from the new generation, so old and new field values never
coexist in the stored record. -/
theorem c8_regen_delete_then_insert (s : SessionState) (k : String) (e : CodeEntry)
    (_hold : List.lookup k s.code_outputs = some e) :
    List.lookup k (applyRegenerate s k).code_outputs = none ∧
    (∀ task idx code now, code ≠ [] → taskKeyPavi task idx = k →
      List.lookup k (applyGenerate (applyRegenerate s k) task idx code now).code_outputs
        = some { task := task, code := code, generated_at := now }) := by
  constructor
  · exact lookup_filter_ne k s.code_outputs
  · intro task idx code now hc hk
    unfold applyGenerate
    rw [if_neg hc]
    simp only [applyRegenerate]
    rw [hk]
    rw [lookup_append_of_none _ _ _ (lookup_filter_ne k s.code_outputs)]
    simp [List.lookup]

/-- Witness state with one stored artifact under the derived key. -/
def regenSampleState : SessionState :=
  { task_list := [sampleTaskA],
    code_outputs := [("task_1", sampleEntryA)],
    project_description := "a blog" }

/-- Witness for claim C8: deleting then regenerating at the sample state. -/
theorem c8_regen_delete_then_insert_witness :
    List.lookup "task_1" (applyRegenerate regenSampleState "task_1").code_outputs = none ∧
    List.lookup "task_1"
      (applyGenerate (applyRegenerate regenSampleState "task_1") sampleTaskA 0
        [("models", "new code")] "11:00:00").code_outputs
      = some { task := sampleTaskA, code := [("models", "new code")], generated_at := "11:00:00" } := by
  have h := c8_regen_delete_then_insert regenSampleState "task_1" sampleEntryA rfl
  exact ⟨h.1, h.2 sampleTaskA 0 [("models", "new code")] "11:00:00" (by simp) rfl⟩

/-- Claim C9: the generate handler writes an entry only for a truthy
(nonempty) generated record, a falsy record leaves the mapping unchanged,
and in every reachable session state no key of the artifact mapping holds
an empty code record. -/
theorem c9_store_nonempty :
    (∀ s task idx now, applyGenerate s task idx [] now = s) ∧
    (∀ s, Reachable s → ∀ k e, (k, e) ∈ s.code_outputs → e.code ≠ []) := by
  constructor
  · intro s task idx now
    simp [applyGenerate]
  · intro s hr
    induction hr with
    | init =>
      intro k e hmem
      simp [initialState] at hmem
    | step s2 t2 hs hstep ih =>
      cases hstep with
      | decompose newTasks brief hne =>
        intro k e hmem
        exact ih k e hmem
      | generate task idx code now hidx hnew =>
        intro k e hmem
        by_cases hc : code = []
        · rw [hc] at hmem
          simp only [applyGenerate, if_pos rfl] at hmem
          exact ih k e hmem
        · rw [show applyGenerate s2 task idx code now
              = { s2 with code_outputs := s2.code_outputs ++
                  [(taskKeyPavi task idx,
                    { task := task, code := code, generated_at := now })] }
            from by rw [applyGenerate, if_neg hc]] at hmem
          rcases List.mem_append.mp hmem with hin | hnewmem
          · exact ih k e hin
          · rw [List.mem_singleton] at hnewmem
            injection hnewmem with hk2 he
            subst he
            exact hc
      | regenerate k2 hold2 =>
        intro k e hmem
        exact ih k e (List.mem_of_mem_filter hmem)
      | editTasks hne =>
        intro k e hmem
        simp [applyEditTasks] at hmem
      | reset =>
        intro k e hmem
        simp [applyReset] at hmem

/-- Session state after one decompose and one generate action. -/
def genState : SessionState :=
  applyGenerate (applyDecompose initialState [sampleTaskA] "a blog")
    sampleTaskA 0 sampleCode "10:00:00"

/-- Witness for claim C9 at a reachable state with one stored artifact. -/
theorem c9_store_nonempty_witness : sampleEntryA.code ≠ [] :=
  c9_store_nonempty.2 genState
    (Reachable.step _ _
      (Reachable.step _ _ Reachable.init (Step.decompose _ [sampleTaskA] "a blog" (by simp)))
      (Step.generate _ sampleTaskA 0 sampleCode "10:00:00" rfl rfl))
    "task_1" sampleEntryA (List.Mem.head _)

/-- Witness state for the export claim: one task, one artifact stored
under its derived key. -/
def exportSampleState : SessionState :=
  { task_list := [sampleTaskA],
    code_outputs := [(taskKeyPavi sampleTaskA 0, sampleEntryA)],
    project_description := "a blog" }

/-- Sample export instant. -/
def sampleNow : DateTime :=
  { year := 2026, month := 10, day := 12, hour := 9, minute := 30, second := 0, microsecond := 0 }

/-- Claim C6: exporting a session holding one task and the artifact
stored under that task's derived key yields a JSON document whose four
top-level keys hold the project description string, the one-element task
array, the generated-code mapping with exactly one entry under that same
derived key (the entry holding the task, its code record and its
generation timestamp), and an export timestamp in ISO-8601 format. -/
theorem c6_export_shape (s : SessionState) (t : Json) (e : CodeEntry) (now : DateTime)
    (htasks : s.task_list = [t])
    (hcode : s.code_outputs = [(taskKeyPavi t 0, e)]) :
    jget (exportAllCode s now) "project" = some (.str s.project_description) ∧
    jget (exportAllCode s now) "tasks" = some (.arr [t]) ∧
    ([t] : List Json).length = 1 ∧
    jget (exportAllCode s now) "generated_code" =
      some (.obj [(taskKeyPavi t 0, encodeEntry e)]) ∧
    jget (encodeEntry e) "task" = some e.task ∧
    jget (encodeEntry e) "code" = some (encodeCodeDict e.code) ∧
    jget (encodeEntry e) "generated_at" = some (.str e.generated_at) ∧
    jget (exportAllCode s now) "timestamp" = some (.str (isoformat now)) ∧
    iso8601Check (isoformat now) = true := by
  refine ⟨rfl, ?_, rfl, ?_, rfl, rfl, rfl, rfl, iso8601Check_isoformat now⟩
  · rw [show jget (exportAllCode s now) "tasks" = some (Json.arr s.task_list) from rfl, htasks]
  · rw [show jget (exportAllCode s now) "generated_code" =
      some (Json.obj (s.code_outputs.map (fun p => (p.1, encodeEntry p.2)))) from rfl, hcode]
    rfl

/-- Witness for claim C6 at the sample state and instant. -/
theorem c6_export_shape_witness :
    jget (exportAllCode exportSampleState sampleNow) "generated_code" =
      some (Json.obj [(taskKeyPavi sampleTaskA 0, encodeEntry sampleEntryA)]) ∧
    jget (exportAllCode exportSampleState sampleNow) "tasks" =
      some (Json.arr [sampleTaskA]) ∧
    iso8601Check (isoformat sampleNow) = true := by
  have h := c6_export_shape exportSampleState sampleTaskA sampleEntryA sampleNow rfl rfl
  exact ⟨h.2.2.2.1, h.2.1, h.2.2.2.2.2.2.2.2⟩
